import Mathlib

/-!
Shallow embedding of `src/convert_table.py`, a single-pass line rewriter
that turns C static array declarations into Rust array constants.

Lines are modelled as `List Char` without their terminating newline
(`readlines` keeps the newline, but the script's first step
`line = line.rstrip()` removes it together with any trailing whitespace,
so nothing is lost by this choice).  Python's whitespace, word and digit
character classes are modelled over ASCII, which covers the source's
input format (a C header of numeric tables).
-/

namespace ConvertTable

/-- ASCII whitespace: models Python's whitespace class as used by
`str.rstrip()`, `str.strip()` and the regex class `\s`. -/
def isSpaceChar (c : Char) : Bool :=
  c == ' ' || c == '\t' || c == '\n' || c == '\x0b' || c == '\x0c' || c == '\x0d'

/-- The regex word class `\w` over ASCII: letters, digits and underscore. -/
def isWordChar (c : Char) : Bool :=
  c.isAlphanum || c == '_'

/-- The regex digit class `\d` over ASCII. -/
def isDigitChar (c : Char) : Bool :=
  c.isDigit

/-- Python `str.rstrip()`: remove trailing whitespace. -/
def rstrip : List Char → List Char
  | [] => []
  | c :: t =>
    match rstrip t with
    | [] => if isSpaceChar c then [] else [c]
    | r => c :: r

/-- Remove leading whitespace (the left half of Python `str.strip()`). -/
def lstrip (l : List Char) : List Char :=
  l.dropWhile isSpaceChar

/-- Python `str.strip()`: remove leading and trailing whitespace. -/
def pyStrip (l : List Char) : List Char :=
  rstrip (lstrip l)

/-- Python `str.startswith("#")`. -/
def startsWithHash (l : List Char) : Bool :=
  match l with
  | [] => false
  | c :: _ => c == '#'

/-- Python `str.upper()` on one ASCII character (`a`..`z` map to
`A`..`Z`, every other character is unchanged). -/
def upperChar (c : Char) : Char :=
  if 97 ≤ c.toNat ∧ c.toNat ≤ 122 then Char.ofNat (c.toNat - 32) else c

/-- Python `str.upper()` over the line model. -/
def pyUpper (l : List Char) : List Char :=
  l.map upperChar

/-- Match a literal regex fragment at the head of the input, returning the
rest of the input on success. -/
def matchLit : List Char → List Char → Option (List Char)
  | [], s => some s
  | _ :: _, [] => none
  | c :: p, d :: s => if c = d then matchLit p s else none

/-- Match a nonempty greedy run of characters of class `p` (regex `X+`),
returning the run and the rest of the input.  Because every class in the
declaration regex is disjoint from its neighbouring literal or class,
greedy matching without backtracking is exactly Python's semantics here. -/
def matchRunPlus (p : Char → Bool) (s : List Char) : Option (List Char × List Char) :=
  match s.takeWhile p with
  | [] => none
  | r => some (r, s.dropWhile p)

/-- `re.match(r'static\s+const\s+(\w+)\s+(\w+)\[(\d*)\]\s*=\s*\x7b', line)`:
anchored at the start of the line, free to stop before its end.  On success
returns the three capture groups (element type, identifier, size digits —
the size group may be empty, from `\d*`). -/
def reMatchDecl (s0 : List Char) : Option (List Char × List Char × List Char) :=
  (matchLit ("static".toList) s0).bind fun s1 =>
  (matchRunPlus isSpaceChar s1).bind fun p2 =>
  (matchLit ("const".toList) p2.2).bind fun s3 =>
  (matchRunPlus isSpaceChar s3).bind fun p4 =>
  (matchRunPlus isWordChar p4.2).bind fun p5 =>
  (matchRunPlus isSpaceChar p5.2).bind fun p6 =>
  (matchRunPlus isWordChar p6.2).bind fun p7 =>
  (matchLit ("[".toList) p7.2).bind fun s8 =>
  (matchLit ("]".toList) (s8.dropWhile isDigitChar)).bind fun s10 =>
  (matchLit ("=".toList) (s10.dropWhile isSpaceChar)).bind fun s12 =>
  (matchLit ("\x7b".toList) (s12.dropWhile isSpaceChar)).map fun _ =>
  (p5.1, p7.1, s8.takeWhile isDigitChar)

/-- The C-type to Rust-type chain of the script (`rust_type = "u32"`
followed by the `if`/`elif` ladder): six recognized fixed-width types,
everything else keeps the initial `u32`. -/
def typeMap (ctype : List Char) : List Char :=
  if ctype = ("uint32_t".toList) then "u32".toList
  else if ctype = ("uint16_t".toList) then "u16".toList
  else if ctype = ("uint8_t".toList) then "u8".toList
  else if ctype = ("int32_t".toList) then "i32".toList
  else if ctype = ("int16_t".toList) then "i16".toList
  else if ctype = ("int8_t".toList) then "i8".toList
  else "u32".toList

/-- The loop body of `convert_table` after `line = line.rstrip()`:
`none` means the line is dropped, `some out` means one output line. -/
def processStripped (line : List Char) : Option (List Char) :=
  if startsWithHash line then none
  else if pyStrip line = [] then some []
  else
    match reMatchDecl line with
    | some (ctype, name, size) =>
      let rust_type := typeMap ctype
      let rust_name := pyUpper name
      if size ≠ [] then
        some (("pub const ".toList) ++ rust_name ++ (": [".toList) ++ rust_type ++
              ("; ".toList) ++ size ++ ("] = [".toList))
      else
        some (("pub const ".toList) ++ rust_name ++ (": [".toList) ++ rust_type ++
              ("; _] = [".toList))
    | none =>
      if line = ("\x7d;".toList) then some ("];".toList)
      else some line

/-- One full loop iteration of `convert_table`: `line = line.rstrip()`
followed by the classification above. -/
def processLine (rawLine : List Char) : Option (List Char) :=
  processStripped (rstrip rawLine)

/-- The two suppression directives written unconditionally at the top of
the output; the second `write` ends in a double newline, which yields a
third, empty, line. -/
def headerLines : List (List Char) :=
  [("#![allow(dead_code)]".toList), ("#![allow(non_upper_case_globals)]".toList), []]

/-- The whole conversion, input lines to output lines. -/
def convertLines (lines : List (List Char)) : List (List Char) :=
  headerLines ++ lines.filterMap processLine

/-- The file-system events `convert_table` performs, in order. -/
inductive FileEvent where
  | openInputForRead : FileEvent
  | openOutputForWrite : FileEvent
  | writeOutput : List Char → FileEvent
  deriving DecidableEq

/-- The I/O structure of `convert_table`: the input file is opened and read
in full first; only when that succeeded (`some lines`) is the output file
opened (truncating it) and written.  `none` models an input that does not
exist or is not readable: the exception propagates and no output event
happens. -/
def runConvertTable (inputContents : Option (List (List Char))) : List FileEvent :=
  FileEvent.openInputForRead ::
    match inputContents with
    | none => []
    | some lines =>
      FileEvent.openOutputForWrite :: (convertLines lines).map FileEvent.writeOutput

/-! ### Helper lemmas -/

theorem matchLit_cons {c : Char} {p s r : List Char}
    (h : matchLit (c :: p) s = some r) : ∃ t, s = c :: t := by
  cases s with
  | nil => simp [matchLit] at h
  | cons d t =>
    by_cases hcd : c = d
    · exact ⟨t, by rw [hcd]⟩
    · simp [matchLit, hcd] at h

theorem reMatchDecl_head {s : List Char} {v : List Char × List Char × List Char}
    (h : reMatchDecl s = some v) : ∃ t, s = 's' :: t := by
  unfold reMatchDecl at h
  cases hm : matchLit ("static".toList) s with
  | none => rw [hm] at h; simp at h
  | some s1 =>
    have hm2 : matchLit ('s' :: ("tatic".toList)) s = some s1 := hm
    exact matchLit_cons hm2

theorem rstrip_cons_of_nonspace {c : Char} (t : List Char)
    (hc : isSpaceChar c = false) : ∃ u, rstrip (c :: t) = c :: u := by
  simp only [rstrip]
  cases hr : rstrip t with
  | nil => exact ⟨[], by simp [hc]⟩
  | cons a r => exact ⟨a :: r, rfl⟩

theorem pyStrip_cons_ne_nil {c : Char} (t : List Char)
    (hc : isSpaceChar c = false) : pyStrip (c :: t) ≠ [] := by
  unfold pyStrip lstrip
  rw [List.dropWhile_cons, if_neg (by simp [hc])]
  obtain ⟨u, hu⟩ := rstrip_cons_of_nonspace t hc
  simp [hu]

theorem startsWithHash_cons_s (t : List Char) :
    startsWithHash ('s' :: t) = false := rfl

/-- Evaluating the loop body on any line the declaration regex accepts:
the output is the declaration-open line built from the three capture
groups, with the placeholder `_` when the size group is empty. -/
theorem processStripped_decl {line c n s : List Char}
    (h : reMatchDecl line = some (c, n, s)) :
    processStripped line =
      if s = [] then
        some (("pub const ".toList) ++ pyUpper n ++ (": [".toList) ++ typeMap c ++
              ("; _] = [".toList))
      else
        some (("pub const ".toList) ++ pyUpper n ++ (": [".toList) ++ typeMap c ++
              ("; ".toList) ++ s ++ ("] = [".toList)) := by
  obtain ⟨t, rfl⟩ := reMatchDecl_head h
  have h1 : startsWithHash ('s' :: t) = false := rfl
  have h2 : pyStrip ('s' :: t) ≠ [] := pyStrip_cons_ne_nil t (by decide)
  rw [processStripped, if_neg (by simp [h1]), if_neg h2, h]
  by_cases hs : s = []
  · simp [hs]
  · simp [hs]

theorem upperChar_idem (c : Char) : upperChar (upperChar c) = upperChar c := by
  by_cases h : 97 ≤ c.toNat ∧ c.toNat ≤ 122
  · have h1 : upperChar c = Char.ofNat (c.toNat - 32) := by
      unfold upperChar; exact if_pos h
    rw [h1]
    obtain ⟨ha, hb⟩ := h
    revert ha hb
    generalize c.toNat = m
    intro ha hb
    interval_cases m <;> decide
  · simp [upperChar, h]

/-! ### Claim theorems -/

/-- Claim C1: the three-line scenario.  The declaration-open line is
rewritten with the upper-cased identifier, the mapped `u8` type and the
verbatim length, the data line passes through, `\x7d;` becomes `];`, and
the two suppression directives (whose trailing double newline yields one
empty line) stand at the top of the output. -/
theorem scenario_three_lines :
    convertLines
      [("static const uint8_t case_conv_table1[378] = \x7b".toList),
       ("1,2,3,".toList), ("\x7d;".toList)] =
      [("#![allow(dead_code)]".toList), ("#![allow(non_upper_case_globals)]".toList), [],
       ("pub const CASE_CONV_TABLE1: [u8; 378] = [".toList),
       ("1,2,3,".toList), ("];".toList)] := by decide

/-- Claim C2 (amended): a line matching none of rules 1-4 is emitted with
its trailing whitespace removed and is otherwise byte-for-byte unchanged
(internal whitespace and trailing punctuation preserved); the script
right-strips every line before classifying it, so only lines without
trailing whitespace are copied exactly. -/
theorem data_line_passthrough (l : List Char)
    (h1 : startsWithHash (rstrip l) = false)
    (h2 : pyStrip (rstrip l) ≠ [])
    (h3 : reMatchDecl (rstrip l) = none)
    (h4 : rstrip l ≠ ("\x7d;".toList)) :
    processLine l = some (rstrip l) := by
  simp [processLine, processStripped, h1, h2, h3, h4]
  intro hx
  exact absurd hx h4

theorem data_line_passthrough_witness :
    processLine ("0x1234, 0x5678,".toList) = some ("0x1234, 0x5678,".toList) :=
  data_line_passthrough ("0x1234, 0x5678,".toList)
    (by decide) (by decide) (by decide) (by decide)

/-- Claim C2, counterexample to the claim as stated: the data line
`1,2,3, ` (trailing space) matches none of rules 1-4, yet the output line
is `1,2,3,` — not byte-for-byte identical to the input. -/
theorem data_line_trailing_space_counterexample :
    startsWithHash (rstrip ("1,2,3, ".toList)) = false ∧
    pyStrip (rstrip ("1,2,3, ".toList)) ≠ [] ∧
    reMatchDecl (rstrip ("1,2,3, ".toList)) = none ∧
    rstrip ("1,2,3, ".toList) ≠ ("\x7d;".toList) ∧
    processLine ("1,2,3, ".toList) ≠ some ("1,2,3, ".toList) := by decide

/-- Claim C3 (amended): an input line whose first character is `#`
produces no output line.  The script tests `startswith("#")` on the
right-stripped line, so the hash must be the very first character: no
left-trimming is applied. -/
theorem hash_line_produces_no_output (l : List Char)
    (h : startsWithHash l = true) : processLine l = none := by
  cases l with
  | nil => simp [startsWithHash] at h
  | cons c t =>
    have hc : c = '#' := by simpa [startsWithHash] using h
    subst hc
    obtain ⟨u, hu⟩ := @rstrip_cons_of_nonspace '#' t (by decide)
    unfold processLine
    rw [hu]
    rfl

theorem hash_line_produces_no_output_witness :
    processLine ("#ifdef CONFIG_ALL_UNICODE".toList) = none :=
  hash_line_produces_no_output ("#ifdef CONFIG_ALL_UNICODE".toList) (by decide)

/-- Claim C3, counterexample to the claim as stated: the line
` #define X` begins with `#` after left-trimming, yet it is not dropped —
it falls through to the data rule and is emitted unchanged. -/
theorem hash_left_trim_counterexample :
    startsWithHash (lstrip (" #define X".toList)) = true ∧
    processLine (" #define X".toList) = some (" #define X".toList) := by decide

/-- Claim C4 (amended): a line equal to `\x7d;` after removing trailing
whitespace only is rewritten to `];`.  The comparison `line == "\x7d;"`
runs on the right-stripped line, so leading whitespace defeats it. -/
theorem close_token_rewrite (l : List Char)
    (h : rstrip l = ("\x7d;".toList)) :
    processLine l = some ("];".toList) := by
  unfold processLine
  rw [h]
  decide

theorem close_token_rewrite_witness :
    processLine ("\x7d;  ".toList) = some ("];".toList) :=
  close_token_rewrite ("\x7d;  ".toList) (by decide)

/-- Claim C4, counterexample to the claim as stated: `  \x7d;` has
whitespace-trimmed content exactly `\x7d;`, yet it is emitted unchanged
rather than rewritten to `];`. -/
theorem close_token_leading_space_counterexample :
    pyStrip ("  \x7d;".toList) = ("\x7d;".toList) ∧
    processLine ("  \x7d;".toList) = some ("  \x7d;".toList) ∧
    processLine ("  \x7d;".toList) ≠ some ("];".toList) := by decide

/-- Claim C5: the element-type mapping is exactly the six-entry table
`uint32_t/uint16_t/uint8_t/int32_t/int16_t/int8_t` to
`u32/u16/u8/i32/i16/i8`, and every other type token maps to `u32`. -/
theorem type_mapping (t : List Char) :
    typeMap ("uint32_t".toList) = ("u32".toList) ∧
    typeMap ("uint16_t".toList) = ("u16".toList) ∧
    typeMap ("uint8_t".toList) = ("u8".toList) ∧
    typeMap ("int32_t".toList) = ("i32".toList) ∧
    typeMap ("int16_t".toList) = ("i16".toList) ∧
    typeMap ("int8_t".toList) = ("i8".toList) ∧
    (t ≠ ("uint32_t".toList) → t ≠ ("uint16_t".toList) → t ≠ ("uint8_t".toList) →
      t ≠ ("int32_t".toList) → t ≠ ("int16_t".toList) → t ≠ ("int8_t".toList) →
      typeMap t = ("u32".toList)) := by
  refine ⟨by decide, by decide, by decide, by decide, by decide, by decide, ?_⟩
  intro h1 h2 h3 h4 h5 h6
  unfold typeMap
  rw [if_neg h1, if_neg h2, if_neg h3, if_neg h4, if_neg h5, if_neg h6]

theorem type_mapping_witness :
    typeMap ("double".toList) = ("u32".toList) :=
  (type_mapping ("double".toList)).2.2.2.2.2.2
    (by decide) (by decide) (by decide) (by decide) (by decide) (by decide)

/-- Claim C6: on every line the declaration regex accepts with a nonempty
size group, the output line carries the length digits verbatim and the
upper-cased input identifier. -/
theorem decl_open_roundtrip (l c n s : List Char)
    (h : reMatchDecl (rstrip l) = some (c, n, s)) (hs : s ≠ []) :
    processLine l =
      some (("pub const ".toList) ++ pyUpper n ++ (": [".toList) ++ typeMap c ++
            ("; ".toList) ++ s ++ ("] = [".toList)) := by
  unfold processLine
  rw [processStripped_decl h]
  simp [hs]

theorem decl_open_roundtrip_witness :
    processLine ("static const uint8_t case_conv_table1[378] = \x7b".toList) =
      some ("pub const CASE_CONV_TABLE1: [u8; 378] = [".toList) :=
  decl_open_roundtrip ("static const uint8_t case_conv_table1[378] = \x7b".toList)
    ("uint8_t".toList) ("case_conv_table1".toList) ("378".toList)
    (by decide) (by decide)

/-- Claim C7: a declaration-open line the regex accepts with an empty size
group (`\d*` matched nothing) produces the placeholder `_` in place of a
length; `processLine` is total, so no error or warning accompanies it. -/
theorem missing_length_placeholder (l c n : List Char)
    (h : reMatchDecl (rstrip l) = some (c, n, [])) :
    processLine l =
      some (("pub const ".toList) ++ pyUpper n ++ (": [".toList) ++ typeMap c ++
            ("; _] = [".toList)) := by
  unfold processLine
  rw [processStripped_decl h]
  simp

theorem missing_length_placeholder_witness :
    processLine ("static const uint8_t tbl[] = \x7b".toList) =
      some ("pub const TBL: [u8; _] = [".toList) :=
  missing_length_placeholder ("static const uint8_t tbl[] = \x7b".toList)
    ("uint8_t".toList) ("tbl".toList) (by decide)

/-- Claim C8: the identifier upper-casing used for the output name
(`name.upper()`) is idempotent — applying it twice equals applying it
once, so already-upper-case identifiers are left unchanged. -/
theorem upper_idempotent (n : List Char) :
    pyUpper (pyUpper n) = pyUpper n := by
  induction n with
  | nil => rfl
  | cons c t ih =>
    simp only [pyUpper, List.map_cons] at ih ⊢
    rw [upperChar_idem, ih]

theorem upper_idempotent_witness :
    pyUpper (pyUpper ("case_conv_table1".toList)) = pyUpper ("case_conv_table1".toList) :=
  upper_idempotent ("case_conv_table1".toList)

/-- Claim C9: in the event model of the script's I/O structure, a failed
input open/read (`none`) leaves the trace with no output-open and no
write event — the output file is untouched — while a successful read
opens the output only after the input was read in full. -/
theorem input_failure_no_output :
    runConvertTable none = [FileEvent.openInputForRead] ∧
    FileEvent.openOutputForWrite ∉ runConvertTable none ∧
    (∀ out, FileEvent.writeOutput out ∉ runConvertTable none) ∧
    (∀ lines, runConvertTable (some lines) =
      FileEvent.openInputForRead :: FileEvent.openOutputForWrite ::
        (convertLines lines).map FileEvent.writeOutput) := by
  refine ⟨rfl, by decide, fun out => by simp [runConvertTable], fun lines => rfl⟩

theorem input_failure_no_output_witness :
    FileEvent.writeOutput ("];".toList) ∉ runConvertTable none :=
  input_failure_no_output.2.2.1 ("];".toList)

/-- Claim C10: the regex is only anchored at the start of the line, so a
one-line declaration with body and closing brace on the same line is
recognized, and everything after the opening brace is discarded: only the
rewritten declaration-open line is emitted. -/
theorem decl_open_discards_tail :
    processLine ("static const uint8_t t[3] = \x7b 1,2,3 \x7d;".toList) =
      some ("pub const T: [u8; 3] = [".toList) := by decide

end ConvertTable
